import Mathlib

/-!
Verification of the feed-control reconciliation client.

Pipeline (a) — `src/backend/bestbuy_provider_python.py`
(`BestBuyProviderPython`): per-item fetch / validate / retry engine,
batch runner and reconciliation writer.

Pipeline (b) — `src/backend/python_files/model_phase2.py`: feed document
builder and the batch slice driver for the marketplace submission
state machine.

Machine reals (Python floats) are modelled as rationals `ℚ`; Python ints
as `ℤ`/`ℕ`.  Remote I/O (HTTP responses, database reads/writes and raised
exceptions) is modelled by explicit oracle parameters describing the
behaviour of the external world; the embedded functions are otherwise
direct transcriptions of the source.
-/

namespace FeedControl

/-- Configuration handed to `BestBuyProviderPython.__init__`
(`stock_level`, `handling_time_omd`, `provider_specific_handling_time`,
`update_flag_value`). -/
structure Config where
  stock_level : ℤ
  handling_time_omd : ℤ
  provider_specific_handling_time : ℤ
  update_flag_value : ℤ
deriving DecidableEq

/-- A normalized remote answer: the dict built by `fetch_product_data`
(keys `sku`, `price`, `brand`, `quantity`, `availability`,
`handlingTime`). -/
structure Answer where
  sku : String
  price : ℚ
  brand : String
  quantity : ℤ
  availability : String
  handlingTime : ℤ
deriving DecidableEq

/-- The observable behaviour of one `requests.get` call to the per-item
lookup API, as distinguished by `fetch_product_data`:
a 200 response whose JSON has `success` and `data` (carrying the
`availability`, `price` and `brand` fields used by the code), a 200
response with an invalid structure, a non-200 status, a timeout, or any
other exception from the request. -/
inductive ApiResult where
  | success (availability : String) (price : ℚ) (brand : String)
  | invalidStructure
  | httpError (status : ℕ)
  | timeout
  | requestFailed
deriving DecidableEq

/-- Python's `str.lower()` as used on the API's `availability` string
(ASCII case folding, character by character; defined by structural
recursion over the character list so that it evaluates). -/
def pyLower (s : String) : String := String.mk (s.data.map Char.toLower)

/-- The fallback dict returned by `fetch_product_data` on every
non-success path ("Retorno padrão em caso de erro", lines 104-112), and
also hard-coded at lines 153-160 of `fetch_product_data_with_retry`. -/
def defaultAnswer (cfg : Config) (sku : String) : Answer :=
  { sku := sku, price := 0, brand := "", quantity := 0,
    availability := "outOfStock",
    handlingTime := cfg.handling_time_omd + cfg.provider_specific_handling_time }

/-- `fetch_product_data` (lines 60-112): transform one API behaviour into
an `Answer`.  All exceptions (timeout or otherwise), non-200 statuses and
malformed bodies are caught and mapped to `defaultAnswer`; the function
never raises.  (The Python `api_data.get('brand','') or ''` null-guard is
absorbed into the oracle's `brand` string.) -/
def fetch_product_data (cfg : Config) (sku : String) : ApiResult → Answer
  | .success av p b =>
      let is_in_stock := pyLower av = "instock"
      { sku := sku, price := p, brand := b,
        quantity := if is_in_stock then cfg.stock_level else 0,
        availability := if is_in_stock then "inStock" else "outOfStock",
        handlingTime := cfg.handling_time_omd + cfg.provider_specific_handling_time }
  | .invalidStructure => defaultAnswer cfg sku
  | .httpError _ => defaultAnswer cfg sku
  | .timeout => defaultAnswer cfg sku
  | .requestFailed => defaultAnswer cfg sku

/-- Severity levels used by `analyze_response` / `calculate_retry_delay`. -/
inductive Severity where
  | low
  | medium
  | high
deriving DecidableEq

/-- The analysis dict built by `analyze_response` (the `reason` log string
carries no control flow and is omitted). -/
structure Verdict where
  is_valid : Bool
  severity : Severity
deriving DecidableEq

/-- `analyze_response` (lines 164-203): rules evaluated in order, first
match wins; the initial dict is `{is_valid: True, severity: 'low'}`. -/
def analyze_response (a : Answer) : Verdict :=
  if a.availability = "outOfStock" ∧ 0 < a.price then
    { is_valid := false, severity := .high }
  else if a.price = 0 ∧ a.availability = "outOfStock" then
    { is_valid := false, severity := .medium }
  else if 0 < a.price ∧ a.price < 5 then
    { is_valid := false, severity := .medium }
  else if 10000 < a.price then
    { is_valid := false, severity := .low }
  else
    { is_valid := true, severity := .low }

/-- `is_better_response` (lines 205-223). -/
def is_better_response (current : Answer) : Option Answer → Bool
  | none => true
  | some previous =>
      if 0 < current.price ∧ previous.price = 0 then true
      else if current.availability = "inStock" ∧ previous.availability = "outOfStock" then
        true
      else false

/-- Severity multipliers of `calculate_retry_delay` (Python floats 1, 1.5, 2). -/
def severityMult : Severity → ℚ
  | .low => 1
  | .medium => 3 / 2
  | .high => 2

/-- `calculate_retry_delay` (lines 225-236):
`int(1000 * attempt * multiplier)`; `int` truncation of the (exactly
representable) product is floor for these non-negative values. -/
def calculate_retry_delay (attempt : ℕ) (severity : Severity) : ℤ :=
  ⌊(1000 * attempt : ℚ) * severityMult severity⌋

/-- Behaviour of one iteration of the retry loop's `try` body:
either `fetch_product_data` runs against an API behaviour (the function
itself catches every exception, so this is the only reachable case), or
some exception escapes the body and is handled by the loop's
`except` clause (lines 144-160). -/
inductive AttemptBehavior where
  | api (r : ApiResult)
  | raised
deriving DecidableEq

/-- The loop of `fetch_product_data_with_retry` (lines 114-162).
`attempt` is the current (1-based) attempt number, `lastValid` the
`last_valid_response` state, and `remaining` the number of attempts left
after the current one (`remaining = 0` on the final attempt).  Returns the
answer together with the list of backoff delays slept (in ms). -/
def fetchRetryGo (cfg : Config) (sku : String) (oracle : ℕ → AttemptBehavior)
    (attempt : ℕ) (lastValid : Option Answer) : ℕ → Answer × List ℤ
  | 0 =>
      match oracle attempt with
      | .raised => (defaultAnswer cfg sku, [])
      | .api r =>
          let pd := fetch_product_data cfg sku r
          let analysis := analyze_response pd
          if analysis.is_valid then (pd, [])
          else
            let lv := if is_better_response pd lastValid then some pd else lastValid
            (lv.getD pd, [])
  | remaining + 1 =>
      match oracle attempt with
      | .raised =>
          let d := calculate_retry_delay attempt .high
          let rest := fetchRetryGo cfg sku oracle (attempt + 1) lastValid remaining
          (rest.1, d :: rest.2)
      | .api r =>
          let pd := fetch_product_data cfg sku r
          let analysis := analyze_response pd
          if analysis.is_valid then (pd, [])
          else
            let lv := if is_better_response pd lastValid then some pd else lastValid
            let d := calculate_retry_delay attempt analysis.severity
            let rest := fetchRetryGo cfg sku oracle (attempt + 1) lv remaining
            (rest.1, d :: rest.2)

/-- `fetch_product_data_with_retry` (lines 114-162), for `max_retries ≥ 1`
(the loop `for attempt in range(1, max_retries + 1)` runs
`max_retries` times; with `max_retries = 0` the Python function would hit
an unbound local at line 162, a case no caller exercises — the model
conflates it with `max_retries = 1`). -/
def fetch_product_data_with_retry (cfg : Config) (sku : String)
    (oracle : ℕ → AttemptBehavior) (max_retries : ℕ) : Answer × List ℤ :=
  fetchRetryGo cfg sku oracle 1 none (max_retries - 1)

/-- The `last_valid_response` state after the loop has processed attempts
`1..i` without returning, as a function of the attempt answers: on a valid
answer the loop would have returned (the state is kept unchanged here), on
an invalid one the candidate is replaced exactly when `is_better_response`
holds (lines 130-132). -/
def retainedAfter (a : ℕ → Answer) : ℕ → Option Answer
  | 0 => none
  | i + 1 =>
      let prev := retainedAfter a i
      if (analyze_response (a (i + 1))).is_valid then prev
      else if is_better_response (a (i + 1)) prev then some (a (i + 1)) else prev

/-! ### Reconciliation writer (`update_product_in_db`, lines 238-308)

The relational store is external: one call's interaction with it is
described by a `DbIo` oracle — the row returned by the `SELECT` (with
nullable columns), the row count reported by the `UPDATE`, and the
exceptions (if any) raised by either statement, which the function's
`except` clause catches. -/

/-- The columns read by the `SELECT` (line 246-249); SQL `NULL`s are
`none` and are coalesced by the Python `or`-defaults before comparison. -/
structure DbRow where
  supplier_price : Option ℚ
  quantity : Option ℤ
  availability : Option String
  brand : Option String
  lead_time : Option ℤ
  lead_time_2 : Option ℤ
  handling_time_amz : Option ℤ
deriving DecidableEq

/-- Behaviour of the database during one `update_product_in_db` call. -/
structure DbIo where
  selectExc : Option String
  row : Option DbRow
  updateExc : Option String
  updateCount : ℕ
deriving DecidableEq

/-- The status dict returned by `update_product_in_db`. -/
inductive UpdateResult where
  | updated
  | no_update
  | failed (msg : String)
deriving DecidableEq

/-- The write issued by `update_product_in_db`: either the
timestamp-only touch (line 269-272) or the full `UPDATE` of lines 279-296
(the `last_update = now()` column is wall-clock time and carries no
modelled value). -/
inductive DbWrite where
  | touch
  | full (supplier_price : ℚ) (quantity : ℤ) (availability : String) (brand : String)
      (lead_time : ℤ) (lead_time_2 : ℤ) (handling_time_amz : ℤ) (atualizado : ℤ)
deriving DecidableEq

/-- The `has_changes` comparison (lines 257-265), with the Python
`or`-defaults for `NULL` columns. -/
def has_changes (cfg : Config) (cur : DbRow) (a : Answer) : Bool :=
  decide (cur.supplier_price.getD 0 ≠ a.price) ||
  decide (cur.quantity.getD 0 ≠ a.quantity) ||
  decide (cur.availability.getD "" ≠ a.availability) ||
  decide (cur.brand.getD "" ≠ a.brand) ||
  decide (cur.lead_time.getD 0 ≠ cfg.handling_time_omd) ||
  decide (cur.lead_time_2.getD 0 ≠ cfg.provider_specific_handling_time) ||
  decide (cur.handling_time_amz.getD 0 ≠ a.handlingTime)

/-- The values bound into the full `UPDATE` statement (lines 279-296). -/
def fullWrite (cfg : Config) (a : Answer) : DbWrite :=
  .full a.price a.quantity a.availability a.brand
    cfg.handling_time_omd cfg.provider_specific_handling_time a.handlingTime
    cfg.update_flag_value

/-- `update_product_in_db` (lines 238-308): returns the status dict and
the write that was issued (if the flow reached one). -/
def update_product_in_db (cfg : Config) (io : DbIo) (a : Answer) :
    UpdateResult × Option DbWrite :=
  match io.selectExc with
  | some m => (.failed m, none)
  | none =>
    match io.row with
    | none => (.failed "Product not found", none)
    | some cur =>
      if has_changes cfg cur a then
        match io.updateExc with
        | some m => (.failed m, none)
        | none =>
          if io.updateCount = 0 then (.failed "No rows updated", some (fullWrite cfg a))
          else (.updated, some (fullWrite cfg a))
      else
        match io.updateExc with
        | some m => (.failed m, none)
        | none => (.no_update, some .touch)

/-! ### Claim-side definitions (written from the spec's words, for the
refinement claims C1 and C6) -/

/-- Claim C1's rule list for the Response Validator, transcribed in the
claim's own order and phrasing. -/
def classifyClaim (a : Answer) : Verdict :=
  if a.availability = "outOfStock" ∧ 0 < a.price then { is_valid := false, severity := .high }
  else if a.availability = "outOfStock" ∧ a.price = 0 then { is_valid := false, severity := .medium }
  else if 0 < a.price ∧ a.price < 5 then { is_valid := false, severity := .medium }
  else if 10000 < a.price then { is_valid := false, severity := .low }
  else { is_valid := true, severity := .low }

/-- Claim C6's field-wise difference over the compared fields (price,
quantity, availability, brand, the two configured lead-time constants and
the combined handling-time), `NULL` columns coalescing to defaults. -/
def differsClaim (cfg : Config) (cur : DbRow) (a : Answer) : Bool :=
  decide (cur.supplier_price.getD 0 ≠ a.price) ||
  decide (cur.quantity.getD 0 ≠ a.quantity) ||
  decide (cur.availability.getD "" ≠ a.availability) ||
  decide (cur.brand.getD "" ≠ a.brand) ||
  decide (cur.lead_time.getD 0 ≠ cfg.handling_time_omd) ||
  decide (cur.lead_time_2.getD 0 ≠ cfg.provider_specific_handling_time) ||
  decide (cur.handling_time_amz.getD 0 ≠ a.handlingTime)

/-- Claim C6's description of the Reconciliation Writer: any exception on
either path is reported as `failed(message)`; a missing row is
`failed("Product not found")`; no difference is `unchanged` after a
timestamp-only touch; a difference triggers the full write of all mapped
fields plus the update flag, returning `updated` exactly when at least one
row was affected and `failed("No rows updated")` on zero rows. -/
def reconcileClaim (cfg : Config) (io : DbIo) (a : Answer) :
    UpdateResult × Option DbWrite :=
  match io.selectExc with
  | some m => (.failed m, none)
  | none =>
    match io.row with
    | none => (.failed "Product not found", none)
    | some cur =>
      match io.updateExc with
      | some m => (.failed m, none)
      | none =>
        if ¬ differsClaim cfg cur a then (.no_update, some .touch)
        else if 1 ≤ io.updateCount then (.updated, some (fullWrite cfg a))
        else (.failed "No rows updated", some (fullWrite cfg a))

/-! ### Concurrency-bounded batch runner (`process_products`, lines 310-369) -/

/-- Recursion core of `chunks`, structural on a fuel argument so that it
evaluates by kernel reduction; a fuel of `l.length` always suffices
because each step consumes at least one element when `n ≥ 1`. -/
def chunksGo (n : ℕ) : ℕ → List α → List (List α)
  | _, [] => []
  | 0, _ :: _ => []
  | fuel + 1, x :: xs =>
      if n = 0 then []
      else ((x :: xs).take n) :: chunksGo n fuel ((x :: xs).drop n)

/-- Splitting a list into consecutive groups of `n`
(`for i in range(0, len(xs), n): xs[i:i+n]`); `n = 0` would raise
`ValueError` in Python, the model returns `[]` there and all theorems
assume `1 ≤ n`. -/
def chunks (n : ℕ) (l : List α) : List (List α) := chunksGo n l.length l

/-- `r['status'] in ['updated', 'no_update']`. -/
def isSuccessStatus : UpdateResult → Bool
  | .updated => true
  | .no_update => true
  | .failed _ => false

/-- `r['status'] == 'updated'`. -/
def isUpdatedStatus : UpdateResult → Bool
  | .updated => true
  | _ => false

/-- `r['status'] == 'failed'`. -/
def isFailedStatus : UpdateResult → Bool
  | .failed _ => true
  | _ => false

/-- The summary dict returned by `process_products` (lines 363-369). -/
structure Report where
  total_processed : ℕ
  success_count : ℕ
  updated_count : ℕ
  failed_count : ℕ
  results : List UpdateResult
deriving DecidableEq

/-- `process_products` (lines 310-369).  `skus` is split into batches of
`batch_size`, each batch into concurrency windows of `max_concurrent`.
Within a window the lookups run concurrently and are collected in
`as_completed` order — modelled by the `reorder` parameter (one arbitrary
reordering per global window index); the database writes then run
sequentially over the collected list.  Each item's lookup uses
`fetch_product_data_with_retry` with the default `max_retries = 3`, and
each write's database behaviour is given by the `dbio` oracle for the
item's sku.  The courtesy `time.sleep` pauses between windows and batches
have no modelled effect. -/
def process_products (cfg : Config) (dbio : String → DbIo)
    (oracle : String → ℕ → AttemptBehavior)
    (reorder : ℕ → List Answer → List Answer)
    (skus : List String) (batch_size max_concurrent : ℕ) : Report :=
  let allWindows := ((chunks batch_size skus).map (chunks max_concurrent)).flatten
  let results :=
    ((allWindows.enum).map (fun p =>
      (reorder p.1 (p.2.map (fun sku =>
          (fetch_product_data_with_retry cfg sku (oracle sku) 3).1))).map
        (fun a => (update_product_in_db cfg (dbio a.sku) a).1))).flatten
  { total_processed := results.length
    success_count := results.countP isSuccessStatus
    updated_count := results.countP isUpdatedStatus
    failed_count := results.countP isFailedStatus
    results := results }

/-! ### Pipeline (b): phase-2 feed submission
(`src/backend/python_files/model_phase2.py`) -/

/-- One row extracted for phase 2: `SELECT sku2, handling_time_amz,
quantity FROM produtos WHERE atualizado = %s AND sku2 LIKE 'SEVC%'`. -/
structure Phase2Row where
  sku2 : String
  handling_time_amz : ℤ
  quantity : ℤ
deriving DecidableEq

/-- One message of the inventory feed (`create_inventory_feed_phase2`,
lines 34-50): the nested `fulfillment_availability` attribute is
flattened to its two data-carrying fields. -/
structure FeedMessage where
  messageId : ℕ
  operationType : String
  sku : String
  productType : String
  quantity : ℤ
  lead_time_to_ship_max_days : ℤ
deriving DecidableEq

/-- The feed document: header (`sellerId`, `version`, `issueLocale`) plus
messages. -/
structure Feed where
  sellerId : String
  version : String
  issueLocale : String
  messages : List FeedMessage
deriving DecidableEq

/-- Modelled from the spec: `validar_feed_json` is called by
`create_inventory_feed_phase2` but its definition is not part of the
sources.  Per §4.5 it "performs a structural validation pass", and per §8
a document with an empty message list is structurally valid; modelled as
checking the fixed schema version and the 1-based sequential message
ids. -/
def validar_feed_json (f : Feed) : Bool :=
  f.version == "2.0" && f.messages.enum.all (fun p => p.2.messageId == p.1 + 1)

/-- `create_inventory_feed_phase2` (lines 30-66): builds one message per
row, 1-based ids in input order (`enumerate(data, 1)`), wraps them with
the header, validates, and returns `None` on validation failure. -/
def create_inventory_feed_phase2 (sellerId : String) (data : List Phase2Row) :
    Option Feed :=
  let messages := data.enum.map (fun p =>
    (⟨p.1 + 1, "PARTIAL_UPDATE", p.2.sku2, "PRODUCT", p.2.quantity,
      p.2.handling_time_amz⟩ : FeedMessage))
  let feed : Feed :=
    { sellerId := sellerId, version := "2.0", issueLocale := "en_US",
      messages := messages }
  if validar_feed_json feed then some feed else none

/-- `extract_updated_data_phase2` (lines 5-28): `conn` is whether a
database connection was obtained, `queryResult` the rows the query
produced (`none` = the query raised).  An empty row list yields `None`
("Nenhum produto atualizado encontrado"). -/
def extract_updated_data_phase2 (conn : Bool)
    (queryResult : Option (List Phase2Row)) : Option (List Phase2Row) :=
  if conn then
    match queryResult with
    | none => none
    | some rows => if rows = [] then none else some rows
  else none

/-- The document descriptor returned by a 201 from the feed-document
endpoint (`create_feed_document`, lines 114-132). -/
structure FeedDocument where
  feedDocumentId : String
  url : String
deriving DecidableEq

/-- Behaviour of one `create_feed_document` call. -/
inductive CreateDocResponse where
  | created (doc : FeedDocument)
  | badStatus (code : ℕ)
  | exn
deriving DecidableEq

/-- `create_feed_document` (lines 114-132): only a 201 yields a document. -/
def create_feed_document : CreateDocResponse → Option FeedDocument
  | .created d => some d
  | .badStatus _ => none
  | .exn => none

/-- Behaviour of one `upload_feed_to_s3` call. -/
inductive UploadResponse where
  | ok
  | badStatus (code : ℕ)
  | exn
deriving DecidableEq

/-- `upload_feed_to_s3` (lines 134-146): true only on a 200. -/
def upload_feed_to_s3 : UploadResponse → Bool
  | .ok => true
  | .badStatus _ => false
  | .exn => false

/-- Behaviour of one submission POST inside `enviar_feed`: a 202 carrying
the feed id the body contained (possibly absent), a 429, another status,
or an exception. -/
inductive SubmitResponse where
  | accepted (feedId : Option String)
  | rateLimited (retryAfter : ℕ)
  | otherStatus (code : ℕ)
  | exn
deriving DecidableEq

/-- The loop of `enviar_feed` (lines 161-190), 0-based attempts over a
`MAX_RETRIES` budget (the constant is defined outside these sources and is
passed in).  A 429 or an exception on the last attempt falls out of the
loop / returns `None`; another non-202 status aborts immediately. -/
def enviarGo (resp : ℕ → SubmitResponse) (attempt : ℕ) : ℕ → Option String
  | 0 => none
  | r + 1 =>
      match resp attempt with
      | .accepted feedId => feedId
      | .rateLimited _ => enviarGo resp (attempt + 1) r
      | .otherStatus _ => none
      | .exn => enviarGo resp (attempt + 1) r

/-- `enviar_feed` (lines 148-190). -/
def enviar_feed (resp : ℕ → SubmitResponse) (maxRetries : ℕ) : Option String :=
  enviarGo resp 0 maxRetries

/-- The JSON returned by a 200 from the feed-status endpoint: its
`processingStatus` and its `resultFeedDocumentId` key if present. -/
structure FeedStatus where
  processingStatus : String
  resultFeedDocumentId : Option String
deriving DecidableEq

/-- Behaviour of one status poll inside `verificar_status_feed`. -/
inductive PollResponse where
  | ok (st : FeedStatus)
  | rateLimited (retryAfter : ℕ)
  | otherStatus (code : ℕ)
  | exn
deriving DecidableEq

/-- The loop of `verificar_status_feed` (lines 200-235): `DONE`,
`CANCELLED` and `FATAL` all return the status dict; every other outcome
(not-yet-terminal 200, 429, other status, exception) sleeps and consumes
one of the `max_attempts` poll attempts. -/
def verificarGo (poll : ℕ → PollResponse) (attempt : ℕ) : ℕ → Option FeedStatus
  | 0 => none
  | r + 1 =>
      match poll attempt with
      | .ok st =>
          if st.processingStatus = "DONE" then some st
          else if st.processingStatus = "CANCELLED" ∨ st.processingStatus = "FATAL" then
            some st
          else verificarGo poll (attempt + 1) r
      | .rateLimited _ => verificarGo poll (attempt + 1) r
      | .otherStatus _ => verificarGo poll (attempt + 1) r
      | .exn => verificarGo poll (attempt + 1) r

/-- `verificar_status_feed` (lines 192-238), 1-based attempts,
`max_attempts` defaulting to 20; `None` on exhausting the budget. -/
def verificar_status_feed (poll : ℕ → PollResponse) (max_attempts : ℕ) :
    Option FeedStatus :=
  verificarGo poll 1 max_attempts

/-- The remote behaviour seen by one slice of `process_in_batches`. -/
structure SliceRemote where
  createDoc : CreateDocResponse
  upload : UploadResponse
  submit : ℕ → SubmitResponse
  poll : ℕ → PollResponse

/-- The body of `process_in_batches`' slice loop (lines 325-364): whether
the slice left the `success` flag intact.  `save_feed_locally_phase2` and
`baixar_relatorio` are non-fatal side effects with no modelled state; a
poll result is accepted exactly when `"resultFeedDocumentId" in
feed_result` (line 360) — the `processingStatus` itself is not
consulted. -/
def processOneSlice (sellerId : String) (maxSubmitRetries : ℕ) (b : SliceRemote)
    (batch_data : List Phase2Row) : Bool :=
  match create_inventory_feed_phase2 sellerId batch_data with
  | none => false
  | some _ =>
    match create_feed_document b.createDoc with
    | none => false
    | some _ =>
      if upload_feed_to_s3 b.upload then
        match enviar_feed b.submit maxSubmitRetries with
        | none => false
        | some _ =>
          match verificar_status_feed b.poll 20 with
          | some st => st.resultFeedDocumentId.isSome
          | none => false
      else false

/-- The slice loop: every slice is processed (`continue`, never `break`);
the pair collects the conjunction of per-slice outcomes and the number of
slices processed.  `idx` is the 1-based `batch_num`. -/
def runSlices (sellerId : String) (maxSubmitRetries : ℕ) (beh : ℕ → SliceRemote)
    (idx : ℕ) : List (List Phase2Row) → Bool × ℕ
  | [] => (true, 0)
  | s :: rest =>
      let ok := processOneSlice sellerId maxSubmitRetries (beh idx) s
      let r := runSlices sellerId maxSubmitRetries beh (idx + 1) rest
      (ok && r.1, r.2 + 1)

/-- The observable outcome of `process_in_batches`: its return value and
whether `reset_updated_flag` was invoked (line 367-368: exactly when
`success` survived). -/
structure Phase2Outcome where
  success : Bool
  didReset : Bool
  slicesProcessed : ℕ
deriving DecidableEq

/-- `process_in_batches` (lines 309-370).  Empty data returns `False`
before anything runs; a missing SP-API access token (`token = none`)
likewise.  The index-arithmetic slicing (`num_batches` = ceiling,
`data[start:end]`) coincides with `chunks batch_size data` for
`batch_size ≥ 1` (with `batch_size = 0` Python would divide by zero). -/
def process_in_batches (sellerId : String) (maxSubmitRetries : ℕ)
    (token : Option String) (beh : ℕ → SliceRemote)
    (data : List Phase2Row) (batch_size : ℕ) : Phase2Outcome :=
  if data = [] then { success := false, didReset := false, slicesProcessed := 0 }
  else
    match token with
    | none => { success := false, didReset := false, slicesProcessed := 0 }
    | some _ =>
      let r := runSlices sellerId maxSubmitRetries beh 1 (chunks batch_size data)
      { success := r.1, didReset := r.1, slicesProcessed := r.2 }

/-- `main_phase2` (lines 372-400): load credentials, extract the changed
rows, and run `process_in_batches` with the default slice size 9990;
`False` when the credentials fail, when no rows were extracted, or when
`process_in_batches` reports failure. -/
def main_phase2 (credsOk : Bool) (conn : Bool) (queryResult : Option (List Phase2Row))
    (sellerId : String) (maxSubmitRetries : ℕ) (token : Option String)
    (beh : ℕ → SliceRemote) : Bool :=
  if credsOk then
    match extract_updated_data_phase2 conn queryResult with
    | none => false
    | some data =>
        (process_in_batches sellerId maxSubmitRetries token beh data 9990).success
  else false

/-! ### Concrete fixtures for witnesses and counterexamples -/

/-- The configuration of `test_python_provider` (lines 388-393). -/
def cfgW : Config :=
  { stock_level := 20
    handling_time_omd := 1
    provider_specific_handling_time := 3
    update_flag_value := 4 }

/-- A remote that times out on every attempt. -/
def oracleTimeout : ℕ → AttemptBehavior := fun _ => .api .timeout

/-- A remote whose attempt bodies raise (exercising the retry loop's own
`except` clause). -/
def oracleRaised : ℕ → AttemptBehavior := fun _ => .raised

/-- A remote whose first attempt is a suspicious out-of-stock $50 answer
and whose remaining attempts time out. -/
def oracleC2b : ℕ → AttemptBehavior :=
  fun i => if i = 1 then .api (.success "na" 50 "") else .api .timeout

/-- Attempt answers as a function of the per-attempt API behaviour. -/
def attemptAnswers (cfg : Config) (sku : String) (api : ℕ → ApiResult) : ℕ → Answer :=
  fun i => fetch_product_data cfg sku (api i)

/-- API behaviour for claim C3: every attempt is a zero-price answer with
no stock, but the reported brand differs between the first attempt and the
later ones. -/
def apiC3 : ℕ → ApiResult :=
  fun i => .success "na" 0 (if i = 1 then "A" else "B")

/-- API behaviour for claim C8: attempt 1 is out-of-stock at $7 (invalid,
HIGH), attempt 2 in-stock at $3 (invalid, MEDIUM — implausibly low). -/
def apiC8 : ℕ → ApiResult :=
  fun i => if i = 1 then .success "na" 7 "" else .success "InStock" 3 ""

/-- A database oracle whose lookups find no row. -/
def dbioNotFound : String → DbIo :=
  fun _ => { selectExc := none, row := none, updateExc := none, updateCount := 0 }

/-- Eight skus, as in `test_python_provider`. -/
def skus8 : List String :=
  ["6569319", "6583949", "6577453", "6529313", "6519664", "6442037", "6568259", "6537630"]

/-- Slice behaviour for claim C5: the pipeline succeeds and the first poll
reports `FATAL` with a result document id. -/
def behC5 : ℕ → SliceRemote :=
  fun _ =>
    { createDoc := .created { feedDocumentId := "FD1", url := "U1" }
      upload := .ok
      submit := fun _ => .accepted (some "FEED1")
      poll := fun _ => .ok { processingStatus := "FATAL", resultFeedDocumentId := some "RDOC1" } }

/-- One extracted row for claim C5. -/
def rowC5 : Phase2Row := { sku2 := "SEVC1", handling_time_amz := 4, quantity := 20 }

/-- Slice behaviour for claim C4 (never consulted on an empty run). -/
def behC4 : ℕ → SliceRemote :=
  fun _ => { createDoc := .exn, upload := .exn, submit := fun _ => .exn, poll := fun _ => .exn }

/-- A transport-level failure of one lookup attempt: the request timed
out or raised another transport error inside `requests.get`. -/
def isTransportAttempt (b : AttemptBehavior) : Prop :=
  b = .api .timeout ∨ b = .api .requestFailed

/-- A completion order that reverses every window (an arbitrary
permutation, standing for `as_completed`). -/
def reorderRev : ℕ → List Answer → List Answer := fun _ l => l.reverse

/-! ## Shared helper lemmas -/

theorem calculate_retry_delay_low (a : ℕ) :
    calculate_retry_delay a .low = 1000 * a := by
  unfold calculate_retry_delay severityMult
  rw [show ((1000 * a : ℚ) * 1 : ℚ) = ((1000 * (a : ℤ) : ℤ) : ℚ) by push_cast; ring]
  rw [Int.floor_intCast]

theorem calculate_retry_delay_medium (a : ℕ) :
    calculate_retry_delay a .medium = 1500 * a := by
  unfold calculate_retry_delay severityMult
  rw [show ((1000 * a : ℚ) * (3 / 2) : ℚ) = ((1500 * (a : ℤ) : ℤ) : ℚ) by push_cast; ring]
  rw [Int.floor_intCast]

theorem calculate_retry_delay_high (a : ℕ) :
    calculate_retry_delay a .high = 2000 * a := by
  unfold calculate_retry_delay severityMult
  rw [show ((1000 * a : ℚ) * 2 : ℚ) = ((2000 * (a : ℤ) : ℤ) : ℚ) by push_cast; ring]
  rw [Int.floor_intCast]

theorem analyze_response_default (cfg : Config) (sku : String) :
    analyze_response (defaultAnswer cfg sku)
      = { is_valid := false, severity := .medium } := by
  simp [analyze_response, defaultAnswer]

theorem fetch_product_data_sku (cfg : Config) (sku : String) (r : ApiResult) :
    (fetch_product_data cfg sku r).sku = sku := by
  cases r <;> rfl

/-! ## Claim C1 -/

/-- Claim C1: `analyze_response` is deterministic and, evaluating its
rules in order with first match winning, returns invalid/HIGH on
out-of-stock with a positive price, invalid/MEDIUM on out-of-stock at
price zero, invalid/MEDIUM on a price in (0, 5), invalid/LOW on a price
above 10000, and valid otherwise — i.e. it coincides with the claim's
rule list `classifyClaim` on every answer. -/
theorem analyze_response_matches_claim (a : Answer) :
    analyze_response a = classifyClaim a := by
  unfold analyze_response classifyClaim
  split_ifs <;> first | rfl | tauto

/-! ## Claim C10 -/

/-- Claim C10: every answer produced by a single lookup
(`fetch_product_data`), the error fallback included, has quantity equal
to the configured stock level when it is in stock and 0 otherwise (the
remote-reported quantity is never consulted — it does not even occur in
the model of the consumed response), and has handling time equal to the
sum of the two configured handling-time constants. -/
theorem fetch_product_data_quantity_handling (cfg : Config) (sku : String)
    (r : ApiResult) :
    (fetch_product_data cfg sku r).handlingTime
        = cfg.handling_time_omd + cfg.provider_specific_handling_time ∧
    (fetch_product_data cfg sku r).quantity
        = (if (fetch_product_data cfg sku r).availability = "inStock"
           then cfg.stock_level else 0) := by
  cases r with
  | success av p b =>
      by_cases h : pyLower av = "instock" <;>
        simp [fetch_product_data, h]
  | invalidStructure => simp [fetch_product_data, defaultAnswer]
  | httpError code => simp [fetch_product_data, defaultAnswer]
  | timeout => simp [fetch_product_data, defaultAnswer]
  | requestFailed => simp [fetch_product_data, defaultAnswer]

/-! ## Claim C6 -/

/-- Claim C6: the Reconciliation Writer returns `failed("Product not
found")` when no row exists, `no_update` after a timestamp-only touch
when no compared field differs, rewrites all mapped fields plus the
update flag when a field differs — returning `updated` exactly when at
least one row was affected, and `failed("No rows updated")` on zero
rows — and reports any exception on either path as `failed(message)`,
never propagating: it coincides with the claim's description
`reconcileClaim` on every input. -/
theorem update_product_in_db_matches_claim (cfg : Config) (io : DbIo) (a : Answer) :
    update_product_in_db cfg io a = reconcileClaim cfg io a := by
  have hdiff : differsClaim cfg = has_changes cfg := rfl
  unfold update_product_in_db reconcileClaim
  rw [hdiff]
  cases io.selectExc with
  | some m => rfl
  | none =>
    cases hr : io.row with
    | none => rfl
    | some cur =>
      cases he : io.updateExc with
      | some m => by_cases h : has_changes cfg cur a <;> simp [h]
      | none =>
        by_cases h : has_changes cfg cur a
        · rcases Nat.eq_zero_or_pos io.updateCount with h0 | h0 <;>
            simp [h, h0, Nat.le_of_lt_succ, show (1 ≤ io.updateCount ↔ ¬ io.updateCount = 0) by omega]
        · simp [h]

/-! ## Claim C2 -/

theorem fetchRetryGo_transport_last (cfg : Config) (sku : String)
    (oracle : ℕ → AttemptBehavior) (attempt : ℕ) (lv : Option Answer)
    (hlv : lv = none ∨ lv = some (defaultAnswer cfg sku))
    (ht : isTransportAttempt (oracle attempt)) :
    fetchRetryGo cfg sku oracle attempt lv 0 = (defaultAnswer cfg sku, []) := by
  rcases ht with ht | ht <;> rcases hlv with hlv | hlv <;> subst hlv <;>
    simp [fetchRetryGo, ht, fetch_product_data, analyze_response,
      is_better_response, defaultAnswer]

theorem fetchRetryGo_transport_step (cfg : Config) (sku : String)
    (oracle : ℕ → AttemptBehavior) (attempt r : ℕ) (lv : Option Answer)
    (hlv : lv = none ∨ lv = some (defaultAnswer cfg sku))
    (ht : isTransportAttempt (oracle attempt)) :
    fetchRetryGo cfg sku oracle attempt lv (r + 1) =
      ((fetchRetryGo cfg sku oracle (attempt + 1) (some (defaultAnswer cfg sku)) r).1,
        1500 * (attempt : ℤ) ::
          (fetchRetryGo cfg sku oracle (attempt + 1) (some (defaultAnswer cfg sku)) r).2) := by
  rcases ht with ht | ht <;> rcases hlv with hlv | hlv <;> subst hlv <;>
    simp [fetchRetryGo, ht, fetch_product_data, analyze_response,
      is_better_response, defaultAnswer, calculate_retry_delay_medium]

theorem fetchRetryGo_transport (cfg : Config) (sku : String)
    (oracle : ℕ → AttemptBehavior) (r : ℕ) :
    ∀ (attempt : ℕ) (lv : Option Answer),
      (lv = none ∨ lv = some (defaultAnswer cfg sku)) →
      (∀ i, attempt ≤ i → i ≤ attempt + r → isTransportAttempt (oracle i)) →
      fetchRetryGo cfg sku oracle attempt lv r =
        (defaultAnswer cfg sku,
          (List.range r).map (fun (k : ℕ) => 1500 * ((attempt : ℤ) + (k : ℤ)))) := by
  induction r with
  | zero =>
      intro attempt lv hlv h
      simp [fetchRetryGo_transport_last cfg sku oracle attempt lv hlv
        (h attempt le_rfl (Nat.le_add_right _ _))]
  | succ r ih =>
      intro attempt lv hlv h
      rw [fetchRetryGo_transport_step cfg sku oracle attempt r lv hlv
        (h attempt le_rfl (by omega))]
      rw [ih (attempt + 1) (some (defaultAnswer cfg sku)) (Or.inr rfl)
        (fun i h1 h2 => h i (by omega) (by omega))]
      refine Prod.ext rfl ?_
      simp only [List.range_succ_eq_map, List.map_cons, List.map_map]
      congr 1
      refine List.map_congr_left (fun k _ => ?_)
      simp only [Function.comp_apply]
      push_cast
      ring

/-- Claim C2 (amended): a transport-level failure of an attempt is
absorbed by `fetch_product_data`, which converts it into the canonical
out-of-stock zero-price answer; the retry loop therefore classifies the
attempt as invalid with severity MEDIUM — so the backoff slept before the
next attempt is 1000 ms × attemptNumber × 1.5 — and when every attempt
(the final one included) fails at the transport level, the canonical
out-of-stock zero-price answer is returned instead of raising. -/
theorem transport_failure_retry (cfg : Config) (sku : String)
    (oracle : ℕ → AttemptBehavior) (n : ℕ) (hn : 1 ≤ n)
    (h : ∀ i, 1 ≤ i → i ≤ n → isTransportAttempt (oracle i)) :
    fetch_product_data_with_retry cfg sku oracle n =
      (defaultAnswer cfg sku,
        (List.range (n - 1)).map (fun (k : ℕ) => 1500 * (1 + (k : ℤ)))) := by
  unfold fetch_product_data_with_retry
  have := fetchRetryGo_transport cfg sku oracle (n - 1) 1 none (Or.inl rfl)
    (fun i h1 h2 => h i h1 (by omega))
  rw [this]
  norm_num

/-- Witness for claim C2's theorem at `max_retries = 3` and a remote that
times out on every attempt: both backoffs are MEDIUM ones, 1500 ms and
3000 ms, and the result is the canonical fallback. -/
theorem transport_failure_retry_witness :
    (1 ≤ 3 ∧ (∀ i, 1 ≤ i → i ≤ 3 → isTransportAttempt (oracleTimeout i))) ∧
    fetch_product_data_with_retry cfgW "S" oracleTimeout 3
      = (defaultAnswer cfgW "S", [1500, 3000]) :=
  ⟨⟨by omega, fun _ _ _ => Or.inl rfl⟩, by
    rw [transport_failure_retry cfgW "S" oracleTimeout 3 (by omega)
      (fun _ _ _ => Or.inl rfl)]
    rfl⟩

/-- Counterexample to claim C2 as stated: with every attempt timing out,
the backoff slept after attempt 1 is 1500 ms, not the claimed
1000 ms × 1 × 2 = 2000 ms (the loop's HIGH-severity `except` branch is
not what a transport failure reaches); and when attempt 1 returned a
suspicious out-of-stock $50 answer and the final attempts fail at the
transport level, the retained $50 candidate — not the canonical
out-of-stock zero-price answer — is returned. -/
theorem transport_backoff_counterexample :
    ((fetch_product_data_with_retry cfgW "S" oracleTimeout 3).2 = [1500, 3000] ∧
      calculate_retry_delay 1 .high = 2000 ∧ (1500 : ℤ) ≠ 2000) ∧
    ((fetch_product_data_with_retry cfgW "S" oracleC2b 3).1
        = (⟨"S", 50, "", 0, "outOfStock", 4⟩ : Answer) ∧
      (⟨"S", 50, "", 0, "outOfStock", 4⟩ : Answer) ≠ defaultAnswer cfgW "S") := by
  refine ⟨⟨?_, by rw [calculate_retry_delay_high]; norm_num, by decide⟩,
    by decide, by decide⟩
  simp [fetch_product_data_with_retry, fetchRetryGo, oracleTimeout,
    fetch_product_data, analyze_response, is_better_response, defaultAnswer,
    calculate_retry_delay_medium]

/-! ## Claim C7 -/

theorem fetchRetryGo_sku (cfg : Config) (sku : String)
    (oracle : ℕ → AttemptBehavior) (r : ℕ) :
    ∀ (attempt : ℕ) (lv : Option Answer), (∀ x ∈ lv, x.sku = sku) →
      (fetchRetryGo cfg sku oracle attempt lv r).1.sku = sku := by
  induction r with
  | zero =>
      intro attempt lv hlv
      cases hb : oracle attempt with
      | raised => simp [fetchRetryGo, hb, defaultAnswer]
      | api r' =>
          by_cases hv : (analyze_response (fetch_product_data cfg sku r')).is_valid <;>
            by_cases hbet : is_better_response (fetch_product_data cfg sku r') lv <;>
              cases lv with
              | none =>
                  simp [fetchRetryGo, hb, hv, hbet, fetch_product_data_sku]
              | some x =>
                  simp [fetchRetryGo, hb, hv, hbet, fetch_product_data_sku,
                    hlv x (by simp)]
  | succ r ih =>
      intro attempt lv hlv
      cases hb : oracle attempt with
      | raised => simp [fetchRetryGo, hb, ih (attempt + 1) lv hlv]
      | api r' =>
          by_cases hv : (analyze_response (fetch_product_data cfg sku r')).is_valid
          · simp [fetchRetryGo, hb, hv, fetch_product_data_sku]
          · by_cases hbet : is_better_response (fetch_product_data cfg sku r') lv
            · simp [fetchRetryGo, hb, hv, hbet,
                ih (attempt + 1) (some (fetch_product_data cfg sku r'))
                  (by simp [fetch_product_data_sku])]
            · simp [fetchRetryGo, hb, hv, hbet, ih (attempt + 1) lv hlv]

/-- Claim C7: for every identifier and every behaviour of the remote
lookup (success, malformed body, non-200 status, timeout, any other
exception, and even an exception escaping the loop body), the retrying
fetcher never raises past its boundary: for every attempt budget the
caller passes (`max_retries ≥ 1`; callers use the default 3) it returns a
`RemoteAnswer`, and one carrying the requested identifier. -/
theorem fetch_with_retry_total (cfg : Config) (sku : String)
    (oracle : ℕ → AttemptBehavior) (n : ℕ) (hn : 1 ≤ n) :
    (fetch_product_data_with_retry cfg sku oracle n).1.sku = sku := by
  unfold fetch_product_data_with_retry
  exact fetchRetryGo_sku cfg sku oracle (n - 1) 1 none (by simp)

/-- Witness for claim C7's theorem: a remote whose loop body raises on
every attempt, with the default budget of 3 attempts. -/
theorem fetch_with_retry_total_witness :
    1 ≤ 3 ∧ (fetch_product_data_with_retry cfgW "SKU1" oracleRaised 3).1.sku = "SKU1" :=
  ⟨by omega, fetch_with_retry_total cfgW "SKU1" oracleRaised 3 (by omega)⟩

/-! ## Claim C3 -/

theorem is_better_sound (c p : Answer)
    (h : is_better_response c (some p) = true) :
    0 < c.price ∨ c.availability = "inStock" := by
  by_cases h1 : 0 < c.price ∧ p.price = 0
  · exact Or.inl h1.1
  · by_cases h2 : c.availability = "inStock" ∧ p.availability = "outOfStock"
    · exact Or.inr h2.1
    · exfalso
      have hf : is_better_response c (some p) = false := by
        simp [is_better_response, h1, h2]
      rw [hf] at h
      exact Bool.noConfusion h

theorem retainedAfter_step_invalid (A : ℕ → Answer) (j : ℕ)
    (hv : (analyze_response (A (j + 1))).is_valid = false) :
    retainedAfter A (j + 1)
      = (if is_better_response (A (j + 1)) (retainedAfter A j) then some (A (j + 1))
         else retainedAfter A j) := by
  simp [retainedAfter, hv]

theorem retainedAfter_const (A : ℕ → Answer) (n : ℕ)
    (hinv : ∀ i, i ≤ n → 1 ≤ i → (analyze_response (A i)).is_valid = false)
    (hcand : ∀ i, i ≤ n → ∀ c, retainedAfter A i = some c →
      ¬ 0 < c.price ∧ c.availability ≠ "inStock") :
    ∀ i, 1 ≤ i → i ≤ n → retainedAfter A i = some (A 1) := by
  intro i
  induction i with
  | zero => omega
  | succ i ih =>
      intro h1 hn'
      by_cases hi : i = 0
      · subst hi
        have hv := hinv 1 (by omega) (by omega)
        rw [retainedAfter_step_invalid A 0 hv]
        simp [retainedAfter, is_better_response]
      · have hprev := ih (by omega) (by omega)
        have hv := hinv (i + 1) (by omega) (by omega)
        rw [retainedAfter_step_invalid A i hv, hprev]
        by_cases hb : is_better_response (A (i + 1)) (some (A 1)) = true
        · exfalso
          have hres : retainedAfter A (i + 1) = some (A (i + 1)) := by
            rw [retainedAfter_step_invalid A i hv, hprev, hb]
            simp
          have hc := hcand (i + 1) (by omega) (A (i + 1)) hres
          rcases is_better_sound (A (i + 1)) (A 1) hb with hp | hs
          · exact hc.1 hp
          · exact hc.2 hs
        · simp only [Bool.not_eq_true] at hb
          simp [hb]

theorem fetchRetryGo_all_invalid (cfg : Config) (sku : String)
    (api : ℕ → ApiResult) (r : ℕ) :
    ∀ j : ℕ,
      (∀ i, j + 1 ≤ i → i ≤ j + 1 + r →
        (analyze_response (attemptAnswers cfg sku api i)).is_valid = false) →
      (fetchRetryGo cfg sku (fun i => .api (api i)) (j + 1)
          (retainedAfter (attemptAnswers cfg sku api) j) r).1
        = (retainedAfter (attemptAnswers cfg sku api) (j + 1 + r)).getD
            (attemptAnswers cfg sku api (j + 1 + r)) := by
  induction r with
  | zero =>
      intro j h
      have hv := h (j + 1) le_rfl (by omega)
      have hstep := retainedAfter_step_invalid (attemptAnswers cfg sku api) j hv
      simp only [fetchRetryGo]
      simp only [attemptAnswers] at hv hstep ⊢
      simp [hv, ← hstep]
  | succ r ih =>
      intro j h
      have hv := h (j + 1) le_rfl (by omega)
      have hstep := retainedAfter_step_invalid (attemptAnswers cfg sku api) j hv
      have hrec := ih (j + 1) (fun i h1 h2 => h i (by omega) (by omega))
      simp only [fetchRetryGo]
      simp only [attemptAnswers] at hv hstep hrec ⊢
      simp only [hv, Bool.false_eq_true, if_false]
      rw [← hstep]
      have harith : j + 1 + 1 + r = j + 1 + (r + 1) := by omega
      rw [harith] at hrec
      exact hrec

/-- Claim C3 (amended): if every attempt's answer fails validation and no
retained best candidate ever has a positive price or IN_STOCK
availability, then `fetch_product_data_with_retry` returns the answer of
the FIRST attempt — the first retained candidate, which under these
hypotheses is never displaced — rather than the last attempt's answer. -/
theorem fallback_returns_first_retained (cfg : Config) (sku : String)
    (api : ℕ → ApiResult) (n : ℕ) (hn : 1 ≤ n)
    (hinv : ∀ i, i ≤ n → 1 ≤ i →
      (analyze_response (attemptAnswers cfg sku api i)).is_valid = false)
    (hcand : ∀ i, i ≤ n → ∀ c,
      retainedAfter (attemptAnswers cfg sku api) i = some c →
      ¬ 0 < c.price ∧ c.availability ≠ "inStock") :
    (fetch_product_data_with_retry cfg sku (fun i => .api (api i)) n).1
      = attemptAnswers cfg sku api 1 := by
  unfold fetch_product_data_with_retry
  have hgo := fetchRetryGo_all_invalid cfg sku api (n - 1) 0
    (fun i h1 h2 => hinv i (by omega) (by omega))
  have h1n : 0 + 1 + (n - 1) = n := by omega
  rw [h1n] at hgo
  have h0 : retainedAfter (attemptAnswers cfg sku api) 0 = none := rfl
  rw [h0] at hgo
  rw [show (0 : ℕ) + 1 = 1 from rfl] at hgo
  rw [hgo]
  rw [retainedAfter_const (attemptAnswers cfg sku api) n hinv hcand n hn le_rfl]
  rfl

/-- Witness for claim C3's theorem: two attempts, both zero-price
out-of-stock answers (invalid, nothing positive or in stock is ever
retained); the result is attempt 1's answer. -/
theorem fallback_returns_first_retained_witness :
    (1 ≤ 2 ∧
      (∀ i, i ≤ 2 → 1 ≤ i →
        (analyze_response (attemptAnswers cfgW "S" apiC3 i)).is_valid = false) ∧
      (∀ i, i ≤ 2 → ∀ c,
        retainedAfter (attemptAnswers cfgW "S" apiC3) i = some c →
        ¬ 0 < c.price ∧ c.availability ≠ "inStock")) ∧
    (fetch_product_data_with_retry cfgW "S" (fun i => .api (apiC3 i)) 2).1
      = attemptAnswers cfgW "S" apiC3 1 := by
  have hinv : ∀ i, i ≤ 2 → 1 ≤ i →
      (analyze_response (attemptAnswers cfgW "S" apiC3 i)).is_valid = false := by
    decide
  have hcand : ∀ i, i ≤ 2 → ∀ c,
      retainedAfter (attemptAnswers cfgW "S" apiC3) i = some c →
      ¬ 0 < c.price ∧ c.availability ≠ "inStock" := by
    intro i hi c hc
    interval_cases i
    · simp [show retainedAfter (attemptAnswers cfgW "S" apiC3) 0 = none from rfl] at hc
    · rw [show retainedAfter (attemptAnswers cfgW "S" apiC3) 1
          = some (attemptAnswers cfgW "S" apiC3 1) from by decide] at hc
      injection hc with h
      subst h
      exact ⟨by decide, by decide⟩
    · rw [show retainedAfter (attemptAnswers cfgW "S" apiC3) 2
          = some (attemptAnswers cfgW "S" apiC3 1) from by decide] at hc
      injection hc with h
      subst h
      exact ⟨by decide, by decide⟩
  exact ⟨⟨by omega, hinv, hcand⟩,
    fallback_returns_first_retained cfgW "S" apiC3 2 (by omega) hinv hcand⟩

/-- Counterexample to claim C3 as stated: both attempts fail validation
with zero-price out-of-stock answers and nothing positive or in stock is
ever retained, yet the returned answer is attempt 1's (brand "A"), which
differs from the last attempt's answer (brand "B"). -/
theorem fallback_last_attempt_counterexample :
    (∀ i, i ≤ 2 → 1 ≤ i →
      (analyze_response (attemptAnswers cfgW "S" apiC3 i)).is_valid = false) ∧
    (fetch_product_data_with_retry cfgW "S" (fun i => .api (apiC3 i)) 2).1
      = attemptAnswers cfgW "S" apiC3 1 ∧
    attemptAnswers cfgW "S" apiC3 1 ≠ attemptAnswers cfgW "S" apiC3 2 := by
  refine ⟨by decide, ?_, by decide⟩
  decide

/-! ## Claim C8 -/

theorem is_better_cases (c p : Answer)
    (h : is_better_response c (some p) = true) :
    (0 < c.price ∧ p.price = 0) ∨
      (c.availability = "inStock" ∧ p.availability = "outOfStock") := by
  by_cases h1 : 0 < c.price ∧ p.price = 0
  · exact Or.inl h1
  · by_cases h2 : c.availability = "inStock" ∧ p.availability = "outOfStock"
    · exact Or.inr h2
    · exfalso
      have hf : is_better_response c (some p) = false := by
        simp [is_better_response, h1, h2]
      rw [hf] at h
      exact Bool.noConfusion h

theorem retainedAfter_invalid (A : ℕ → Answer) :
    ∀ i c, retainedAfter A i = some c → (analyze_response c).is_valid = false := by
  intro i
  induction i with
  | zero => intro c hc; simp [retainedAfter] at hc
  | succ i ih =>
      intro c hc
      by_cases hv : (analyze_response (A (i + 1))).is_valid
      · rw [show retainedAfter A (i + 1) = retainedAfter A i from by
          simp [retainedAfter, hv]] at hc
        exact ih c hc
      · have hv' : (analyze_response (A (i + 1))).is_valid = false := by
          simpa using hv
        rw [retainedAfter_step_invalid A i hv'] at hc
        by_cases hb : is_better_response (A (i + 1)) (retainedAfter A i) = true
        · rw [hb] at hc
          simp only [if_true] at hc
          injection hc with h
          rw [← h]
          exact hv'
        · simp only [Bool.not_eq_true] at hb
          rw [hb] at hc
          simp only [Bool.false_eq_true, if_false] at hc
          exact ih c hc

theorem invalid_inStock_price_pos (c : Answer)
    (hv : (analyze_response c).is_valid = false)
    (hs : c.availability = "inStock") : 0 < c.price := by
  by_cases h3 : 0 < c.price ∧ c.price < 5
  · exact h3.1
  · by_cases h4 : 10000 < c.price
    · linarith
    · exfalso
      have hno : ¬ c.availability = "outOfStock" := by
        rw [hs]; decide
      have ht : (analyze_response c).is_valid = true := by
        unfold analyze_response
        simp [hno, h3, h4]
      rw [ht] at hv
      exact Bool.noConfusion hv

/-- Claim C8 (amended): across the attempts of one retry call, once the
retained best candidate has a positive price every later retained
candidate also has a positive price — a positive-price candidate is never
replaced by a zero-price one, though an IN_STOCK replacement may carry a
smaller (still positive) price — and once the retained candidate is
IN_STOCK it is never replaced at all, in particular never by an
OUT_OF_STOCK answer. -/
theorem best_candidate_invariants (A : ℕ → Answer) (i : ℕ) (c : Answer)
    (hc : retainedAfter A i = some c) :
    (0 < c.price → ∃ d, retainedAfter A (i + 1) = some d ∧ 0 < d.price) ∧
    (c.availability = "inStock" → retainedAfter A (i + 1) = some c) := by
  by_cases hv : (analyze_response (A (i + 1))).is_valid
  · have hkeep : retainedAfter A (i + 1) = retainedAfter A i := by
      simp [retainedAfter, hv]
    rw [hkeep, hc]
    exact ⟨fun hp => ⟨c, rfl, hp⟩, fun _ => rfl⟩
  · have hv' : (analyze_response (A (i + 1))).is_valid = false := by simpa using hv
    rw [retainedAfter_step_invalid A i hv', hc]
    by_cases hb : is_better_response (A (i + 1)) (some c) = true
    · rw [hb]
      simp only [if_true]
      constructor
      · intro _
        refine ⟨A (i + 1), rfl, ?_⟩
        rcases is_better_sound (A (i + 1)) c hb with hp' | hs'
        · exact hp'
        · exact invalid_inStock_price_pos (A (i + 1)) hv' hs'
      · intro hs
        exfalso
        have hcinv := retainedAfter_invalid A i c hc
        have hcp : 0 < c.price := invalid_inStock_price_pos c hcinv hs
        rcases is_better_cases (A (i + 1)) c hb with ⟨_, hc0⟩ | ⟨_, hoos⟩
        · rw [hc0] at hcp
          exact lt_irrefl 0 hcp
        · rw [hs] at hoos
          exact absurd hoos (by decide)
    · simp only [Bool.not_eq_true] at hb
      rw [if_neg (by simp [hb])]
      exact ⟨fun hp => ⟨c, rfl, hp⟩, fun _ => rfl⟩

/-- Witness for claim C8's theorem at the retained trace of `apiC8`:
after attempt 1 the candidate is the out-of-stock $7 answer, and the
invariants hold of the next step. -/
theorem best_candidate_invariants_witness :
    retainedAfter (attemptAnswers cfgW "S" apiC8) 1
      = some (⟨"S", 7, "", 0, "outOfStock", 4⟩ : Answer) ∧
    ((0 < (⟨"S", 7, "", 0, "outOfStock", 4⟩ : Answer).price →
        ∃ d, retainedAfter (attemptAnswers cfgW "S" apiC8) 2 = some d ∧ 0 < d.price) ∧
      ((⟨"S", 7, "", 0, "outOfStock", 4⟩ : Answer).availability = "inStock" →
        retainedAfter (attemptAnswers cfgW "S" apiC8) 2
          = some (⟨"S", 7, "", 0, "outOfStock", 4⟩ : Answer))) :=
  ⟨by decide,
    best_candidate_invariants (attemptAnswers cfgW "S" apiC8) 1 _ (by decide)⟩

/-- Counterexample to claim C8 as stated: both attempts of `apiC8` fail
validation, the retained candidate after attempt 1 has price $7 and after
attempt 2 price $3 (an invalid IN_STOCK answer displaces an OUT_OF_STOCK
one) — the retained price is not monotonically non-decreasing. -/
theorem best_candidate_price_decrease_counterexample :
    (analyze_response (attemptAnswers cfgW "S" apiC8 1)).is_valid = false ∧
    (analyze_response (attemptAnswers cfgW "S" apiC8 2)).is_valid = false ∧
    retainedAfter (attemptAnswers cfgW "S" apiC8) 1
      = some (⟨"S", 7, "", 0, "outOfStock", 4⟩ : Answer) ∧
    retainedAfter (attemptAnswers cfgW "S" apiC8) 2
      = some (⟨"S", 3, "", 20, "inStock", 4⟩ : Answer) ∧
    ((3 : ℚ) < 7) := by
  decide

/-! ## Claim C9 -/

theorem chunksGo_flatten (n : ℕ) (hn : n ≠ 0) :
    ∀ (fuel : ℕ) (l : List α), l.length ≤ fuel →
      (chunksGo n fuel l).flatten = l := by
  intro fuel
  induction fuel with
  | zero =>
      intro l hl
      rw [List.length_eq_zero.mp (Nat.le_zero.mp hl)]
      simp [chunksGo]
  | succ m ih =>
      intro l hl
      cases l with
      | nil => simp [chunksGo]
      | cons x xs =>
          simp only [chunksGo, if_neg hn, List.flatten_cons]
          rw [ih ((x :: xs).drop n) (by
            simp only [List.length_drop, List.length_cons]
            simp only [List.length_cons] at hl
            omega)]
          exact List.take_append_drop n (x :: xs)

theorem chunks_flatten (n : ℕ) (hn : n ≠ 0) (l : List α) :
    (chunks n l).flatten = l :=
  chunksGo_flatten n hn l.length l le_rfl

theorem flatten_map_chunks (C : ℕ) (hC : C ≠ 0) (bs : List (List α)) :
    ((bs.map (chunks C)).flatten).flatten = bs.flatten := by
  induction bs with
  | nil => simp
  | cons b bs ih =>
      rw [List.map_cons, List.flatten_cons, List.flatten_append,
        chunks_flatten C hC b, ih, List.flatten_cons]

theorem window_results_length (cfg : Config) (dbio : String → DbIo)
    (oracle : String → ℕ → AttemptBehavior) (reorder : ℕ → List Answer → List Answer)
    (hperm : ∀ i l, (reorder i l).Perm l) :
    ∀ (ws : List (List String)) (k : ℕ),
      (((ws.enumFrom k).map (fun p =>
          (reorder p.1 (p.2.map (fun sku =>
            (fetch_product_data_with_retry cfg sku (oracle sku) 3).1))).map
          (fun a => (update_product_in_db cfg (dbio a.sku) a).1))).flatten).length
        = ws.flatten.length := by
  intro ws
  induction ws with
  | nil => intro k; simp
  | cons w ws ih =>
      intro k
      rw [List.enumFrom_cons, List.map_cons, List.flatten_cons, List.length_append,
        ih (k + 1), List.flatten_cons, List.length_append]
      congr 1
      rw [List.length_map]
      exact ((hperm k _).length_eq).trans (List.length_map _ _)

/-- Claim C9: for every list of identifiers, every positive batch size
and every positive concurrency limit (with 0 Python would raise a
`ValueError` before producing a report), and every per-window completion
order, the batch runner's report counts exactly one entry per input
identifier: `total_processed` equals the number of identifiers.  The
groups themselves are traversed in order by construction (the report is
the in-order concatenation of the per-window result lists). -/
theorem process_products_total_count (cfg : Config) (dbio : String → DbIo)
    (oracle : String → ℕ → AttemptBehavior) (reorder : ℕ → List Answer → List Answer)
    (skus : List String) (B C : ℕ) (hB : 1 ≤ B) (hC : 1 ≤ C)
    (hperm : ∀ i l, (reorder i l).Perm l) :
    (process_products cfg dbio oracle reorder skus B C).total_processed
      = skus.length := by
  unfold process_products
  simp only []
  rw [show List.enum = fun (l : List (List String)) => List.enumFrom 0 l from rfl]
  rw [window_results_length cfg dbio oracle reorder hperm
    (((chunks B skus).map (chunks C)).flatten) 0]
  rw [flatten_map_chunks C (by omega) (chunks B skus)]
  rw [chunks_flatten B (by omega) skus]

/-- Witness for claim C9's theorem: 8 identifiers, batch size 4,
concurrency 3, reversed completion order inside every window — the report
still counts 8 items. -/
theorem process_products_total_count_witness :
    (1 ≤ 4 ∧ 1 ≤ 3 ∧ ∀ i (l : List Answer), (reorderRev i l).Perm l) ∧
    (process_products cfgW dbioNotFound (fun _ => oracleTimeout) reorderRev
      skus8 4 3).total_processed = 8 :=
  ⟨⟨by omega, by omega, fun _ l => l.reverse_perm⟩, by
    rw [process_products_total_count cfgW dbioNotFound (fun _ => oracleTimeout)
      reorderRev skus8 4 3 (by omega) (by omega) (fun _ l => l.reverse_perm)]
    rfl⟩

/-! ## Claim C4 -/

/-- Claim C4 (amended): a document built from an empty row list is still
a structurally valid document with an empty message list; but the
submission driver treats zero changed rows as a no-op FAILURE, not a
success — `process_in_batches` returns `False` without contacting the
remote API (no slice is processed and no flag reset happens), and
`main_phase2` likewise reports `False`, the same indicator an error
produces. -/
theorem empty_rows_behavior (sellerId : String) (m : ℕ) (token : Option String)
    (beh : ℕ → SliceRemote) :
    (create_inventory_feed_phase2 sellerId []).map Feed.messages = some [] ∧
    process_in_batches sellerId m token beh [] 9990
      = { success := false, didReset := false, slicesProcessed := 0 } ∧
    main_phase2 true true (some []) sellerId m token beh = false :=
  ⟨rfl, rfl, rfl⟩

/-- Counterexample to claim C4 as stated: with credentials and the
database both fine but zero changed rows, the driver returns `False` —
the failure indicator — not a no-op success. -/
theorem empty_rows_driver_failure_counterexample :
    main_phase2 true true (some []) "s" 3 (some "tk") behC4 = false ∧
    (false : Bool) ≠ true := by
  decide

/-! ## Claim C5 -/

theorem runSlices_spec (sellerId : String) (m : ℕ) (beh : ℕ → SliceRemote) :
    ∀ (slices : List (List Phase2Row)) (idx : ℕ),
      ((runSlices sellerId m beh idx slices).1 = true ↔
        ∀ p ∈ slices.enumFrom idx, processOneSlice sellerId m (beh p.1) p.2 = true) ∧
      (runSlices sellerId m beh idx slices).2 = slices.length := by
  intro slices
  induction slices with
  | nil => intro idx; simp [runSlices]
  | cons s rest ih =>
      intro idx
      constructor
      · simp only [runSlices, Bool.and_eq_true, List.enumFrom_cons, List.mem_cons]
        constructor
        · rintro ⟨h1, h2⟩ p hp
          rcases hp with hp | hp
          · rw [hp]; exact h1
          · exact ((ih (idx + 1)).1.mp h2) p hp
        · intro hall
          exact ⟨hall (idx, s) (Or.inl rfl),
            (ih (idx + 1)).1.mpr (fun p hp => hall p (Or.inr hp))⟩
      · simp only [runSlices, List.length_cons]
        rw [(ih (idx + 1)).2]

/-- Claim C5 (amended): every slice is processed even when an earlier
slice failed (no abort), any slice failure makes the run report failure,
and the local "pending" flag is reset exactly when every slice's pipeline
succeeded AND its final poll returned a status dict containing
`resultFeedDocumentId` — a condition DONE does not guarantee and
CANCELLED/FATAL do not preclude: the terminal `processingStatus` itself
is never consulted by the driver. -/
theorem reset_iff_slices_ok (sellerId : String) (m : ℕ) (tk : String)
    (beh : ℕ → SliceRemote) (data : List Phase2Row) (bs : ℕ)
    (hd : data ≠ []) (hbs : 1 ≤ bs) :
    (process_in_batches sellerId m (some tk) beh data bs).didReset
      = (process_in_batches sellerId m (some tk) beh data bs).success ∧
    ((process_in_batches sellerId m (some tk) beh data bs).success = true ↔
      ∀ p ∈ (chunks bs data).enumFrom 1,
        processOneSlice sellerId m (beh p.1) p.2 = true) ∧
    (process_in_batches sellerId m (some tk) beh data bs).slicesProcessed
      = (chunks bs data).length := by
  unfold process_in_batches
  rw [if_neg hd]
  exact ⟨rfl, (runSlices_spec sellerId m beh (chunks bs data) 1).1,
    (runSlices_spec sellerId m beh (chunks bs data) 1).2⟩

/-- Witness for claim C5's theorem: one slice whose pipeline succeeds and
whose poll reports FATAL with a result document id. -/
theorem reset_iff_slices_ok_witness :
    (([rowC5] : List Phase2Row) ≠ [] ∧ 1 ≤ 9990) ∧
    ((process_in_batches "s" 3 (some "tk") behC5 [rowC5] 9990).didReset
        = (process_in_batches "s" 3 (some "tk") behC5 [rowC5] 9990).success ∧
      ((process_in_batches "s" 3 (some "tk") behC5 [rowC5] 9990).success = true ↔
        ∀ p ∈ (chunks 9990 [rowC5]).enumFrom 1,
          processOneSlice "s" 3 (behC5 p.1) p.2 = true) ∧
      (process_in_batches "s" 3 (some "tk") behC5 [rowC5] 9990).slicesProcessed
        = (chunks 9990 [rowC5]).length) :=
  ⟨⟨by decide, by omega⟩,
    reset_iff_slices_ok "s" 3 "tk" behC5 [rowC5] 9990 (by decide) (by omega)⟩

/-- Counterexample to claim C5 as stated: the single slice's feed ends in
terminal status FATAL (not DONE), yet because the status dict carries a
`resultFeedDocumentId` the driver counts the slice as successful and
resets the local "pending" flag. -/
theorem reset_without_done_counterexample :
    (process_in_batches "s" 3 (some "tk") behC5 [rowC5] 9990).didReset = true ∧
    verificar_status_feed (behC5 1).poll 20
      = some { processingStatus := "FATAL", resultFeedDocumentId := some "RDOC1" } ∧
    ("FATAL" : String) ≠ "DONE" := by
  decide

end FeedControl
